import Mathlib

/-!
Verification of the run-classification core of the strava-running-dashboard
repository (`enhanced_run_classifier.py`), as a shallow embedding in Lean 4.

Modelling conventions:
* Numeric fields are exact rationals (`ℚ`); the Python source computes with
  IEEE float64, which we model with exact arithmetic.
* A dataframe is a `List Row`; `df.apply(classify_run, axis=1)` is `List.map`.
* An optional field (`row.get(...)`) is an `Option ℚ`; `none` covers both a
  missing column and a `NaN` cell.  For every use the source makes of these
  fields this identification is exact: a `NaN` best-effort pace is truthy in
  Python but fails every `<=` comparison, so, like `None`, it can never fire a
  rule branch; a `NaN` heart rate fails `> 0` and so yields percentage `0`,
  exactly like the default `0` used for a missing column.
* A present pace of `0.0` is falsy in Python and skips the rule branch; the
  embedding keeps this with explicit `p ≠ 0` guards mirroring `if pace and ...`.
* Heart-rate percentages live in `WithTop ℚ`: dividing a positive float64 by
  the configured maximum heart rate when that maximum is `0` yields `+inf`
  (numpy emits a warning but no exception), modelled by `⊤`.  The comparison
  behaviour of `⊤` (`⊤ ≥ 95` true, `⊤ < 70` false, `⊤ ≤ 81` false) agrees with
  IEEE `inf`.
-/

namespace Pfitz

/-- One activity record, mirroring the dataframe columns read by
`PfitzRunClassifier.classify_run`.  `distance_km`, `pace_min_per_km` and
`duration_min` are accessed with `row[...]` (required); the heart-rate and
best-effort columns are accessed with `row.get(...)` (optional). -/
structure Row where
  distance_km : ℚ
  duration_min : ℚ
  pace_min_per_km : ℚ
  average_heartrate : Option ℚ
  max_heartrate : Option ℚ
  pace_2_mile : Option ℚ
  pace_1k : Option ℚ
  pace_5k : Option ℚ
  pace_10k : Option ℚ
deriving DecidableEq, Repr

/-- The mutable state of a `PfitzRunClassifier` instance: the configured
maximum heart rate, the two known personal-best paces set in `__init__`, and
the two tracked personal-best paces (initially `None`, written by
`calculate_personal_bests`). -/
structure Classifier where
  max_hr : ℚ
  known_pb_5k_pace : ℚ
  known_pb_10k_pace : ℚ
  tracked_pb_5k_pace : Option ℚ
  tracked_pb_10k_pace : Option ℚ
deriving DecidableEq, Repr

/-- Embeds `PfitzRunClassifier(max_hr=191)`: known 5K PB pace 4.0 min/km, known 10K
PB pace 4.2 min/km, no tracked bests yet. -/
def initClassifier : Classifier :=
  { max_hr := 191
    known_pb_5k_pace := 4
    known_pb_10k_pace := 21/5
    tracked_pb_5k_pace := none
    tracked_pb_10k_pace := none }

/-- The heart-rate percentage computation
`(hr / self.max_hr * 100) if hr > 0 else 0`.  When the configured maximum is
`0` and the observed rate is positive, float64 division yields `+inf`,
modelled as `⊤`. -/
def hr_pct (max_hr hr : ℚ) : WithTop ℚ :=
  if 0 < hr then
    (if max_hr = 0 then ⊤ else (((hr / max_hr * 100 : ℚ)) : WithTop ℚ))
  else ((0 : ℚ) : WithTop ℚ)

/-- Embeds `PfitzRunClassifier._is_race`: the 5 km best effort exists (truthy) and is
within 0.17 min/km of the known 5K PB, or the 10 km best effort exists and is
within 0.17 min/km of the known 10K PB.  The `p ≠ 0` and `known ≠ 0` guards
are Python truthiness of `if pace_5k and self.known_pb_5k_pace`. -/
def is_race (c : Classifier) (pace_5k pace_10k : Option ℚ) : Bool :=
  (match pace_5k with
   | some p =>
       decide (p ≠ 0) && decide (c.known_pb_5k_pace ≠ 0) &&
       decide (p ≤ c.known_pb_5k_pace + 17/100)
   | none => false) ||
  (match pace_10k with
   | some p =>
       decide (p ≠ 0) && decide (c.known_pb_10k_pace ≠ 0) &&
       decide (p ≤ c.known_pb_10k_pace + 17/100)
   | none => false)

/-- Embeds `PfitzRunClassifier._is_vo2_max_intervals`: max-HR percentage at least 95,
or the 1 km best effort exists and is within 0.083 min/km of the known 5K
PB. -/
def is_vo2_max_intervals (c : Classifier) (pace_1k : Option ℚ)
    (max_hr_pct : WithTop ℚ) : Bool :=
  decide (max_hr_pct ≥ ((95 : ℚ) : WithTop ℚ)) ||
  (match pace_1k with
   | some p =>
       decide (p ≠ 0) && decide (c.known_pb_5k_pace ≠ 0) &&
       decide (p ≤ c.known_pb_5k_pace + 83/1000)
   | none => false)

/-- Embeds `PfitzRunClassifier._is_lactate_threshold`: max-HR percentage at least 85
AND the 2-mile best effort exists and is within 0.42 min/km of the known 10K
PB (a conjunction). -/
def is_lactate_threshold (c : Classifier) (pace_2_mile : Option ℚ)
    (max_hr_pct : WithTop ℚ) : Bool :=
  decide (max_hr_pct ≥ ((85 : ℚ) : WithTop ℚ)) &&
  (match pace_2_mile with
   | some p =>
       decide (p ≠ 0) && decide (c.known_pb_10k_pace ≠ 0) &&
       decide (p ≤ c.known_pb_10k_pace + 42/100)
   | none => false)

/-- Embeds `PfitzRunClassifier._is_recovery_run`:
`distance_km <= 8.0 and avg_hr_pct < 70 and avg_hr_pct > 0`. -/
def is_recovery_run (distance_km : ℚ) (avg_hr_pct : WithTop ℚ) : Bool :=
  decide (distance_km ≤ 8) && decide (avg_hr_pct < ((70 : ℚ) : WithTop ℚ)) &&
  decide (((0 : ℚ) : WithTop ℚ) < avg_hr_pct)

/-- Embeds `PfitzRunClassifier._is_endurance_run`:
`distance_km >= 12 and duration_min >= 60`. -/
def is_endurance_run (distance_km duration_min : ℚ) : Bool :=
  decide (distance_km ≥ 12) && decide (duration_min ≥ 60)

/-- Embeds `PfitzRunClassifier._is_general_aerobic`:
`3 <= distance_km < 12`, `duration_min >= 15`, `70 <= avg_hr_pct <= 81`. -/
def is_general_aerobic (distance_km : ℚ) (avg_hr_pct : WithTop ℚ)
    (duration_min : ℚ) : Bool :=
  decide (distance_km ≥ 3) && decide (distance_km < 12) &&
  decide (duration_min ≥ 15) &&
  decide (avg_hr_pct ≥ ((70 : ℚ) : WithTop ℚ)) &&
  decide (avg_hr_pct ≤ ((81 : ℚ) : WithTop ℚ))

/-- The average-heart-rate percentage `classify_run` computes for a row:
`avg_hr = row.get('average_heartrate', 0)` followed by `hr_pct`. -/
def avg_hr_pct_of (c : Classifier) (row : Row) : WithTop ℚ :=
  hr_pct c.max_hr (row.average_heartrate.getD 0)

/-- The max-heart-rate percentage `classify_run` computes for a row:
`max_hr_run = row.get('max_heartrate', 0)` followed by `hr_pct`. -/
def max_hr_pct_of (c : Classifier) (row : Row) : WithTop ℚ :=
  hr_pct c.max_hr (row.max_heartrate.getD 0)

/-- Embeds `PfitzRunClassifier.classify_run`: the ordered rule cascade.  The first
rule whose predicate holds determines the returned label; `"Other"` is the
unconditional fallback. -/
def classify_run (c : Classifier) (row : Row) : String :=
  if is_race c row.pace_5k row.pace_10k then "Race"
  else if is_vo2_max_intervals c row.pace_1k (max_hr_pct_of c row) then
    "VO₂ Max Intervals"
  else if is_lactate_threshold c row.pace_2_mile (max_hr_pct_of c row) then
    "Lactate Threshold"
  else if is_recovery_run row.distance_km (avg_hr_pct_of c row) then "Recovery"
  else if is_endurance_run row.distance_km row.duration_min then "Endurance"
  else if is_general_aerobic row.distance_km (avg_hr_pct_of c row)
      row.duration_min then "General Aerobic"
  else "Other"

/-- The seven labels `classify_run` can return, in precedence order. -/
def allLabels : List String :=
  ["Race", "VO₂ Max Intervals", "Lactate Threshold", "Recovery", "Endurance",
   "General Aerobic", "Other"]

/-- Minimum of a list of rationals (`Series.min()` over the non-null
values); `none` on the empty list. -/
def list_min : List ℚ → Option ℚ
  | [] => none
  | x :: xs =>
      match list_min xs with
      | none => some x
      | some m => some (min x m)

/-- Embeds `PfitzRunClassifier.calculate_personal_bests`: for each of the 5 km and
10 km best-effort columns, drop the missing values and, ONLY when at least one
value remains, overwrite the tracked personal best with the minimum.  A column
with no data leaves the previously stored tracked value in place. -/
def calculate_personal_bests (c : Classifier) (df : List Row) : Classifier :=
  { c with
    tracked_pb_5k_pace :=
      match list_min (df.filterMap (·.pace_5k)) with
      | some m => some m
      | none => c.tracked_pb_5k_pace
    tracked_pb_10k_pace :=
      match list_min (df.filterMap (·.pace_10k)) with
      | some m => some m
      | none => c.tracked_pb_10k_pace }

/-- Embeds `PfitzRunClassifier.classify_dataframe`: run `calculate_personal_bests`
on the batch (updating the instance state), then label every row with
`classify_run`.  The result pairs each source row, unchanged and in order,
with its derived label (the `run_type` column). -/
def classify_dataframe (c : Classifier) (df : List Row) :
    Classifier × List (Row × String) :=
  let c' := calculate_personal_bests c df
  (c', df.map (fun r => (r, classify_run c' r)))

/-- One row of the groupby table built by `get_classification_summary`:
count of records, mean distance, mean pace, mean average heart rate (the last
is `none` when no record in the group has heart-rate data, as the pandas mean
of an all-NaN column is NaN). -/
structure RunSummary where
  count : Nat
  mean_distance_km : ℚ
  mean_pace_min_per_km : ℚ
  mean_average_heartrate : Option ℚ
deriving DecidableEq, Repr

/-- Arithmetic mean of a list of rationals. -/
def list_mean (l : List ℚ) : ℚ := l.sum / l.length

/-- Rounding to two decimal places (the `.round(2)` on the aggregate table),
modelled with exact rationals. -/
def round2 (q : ℚ) : ℚ := ((round (q * 100) : ℤ) : ℚ) / 100

/-- The summary row for one label: the group of labeled records carrying that
label; absent from the mapping when the group is empty (pandas `groupby`
produces no row for an absent key).  Means ignore missing heart-rate values
(pandas `mean` skips NaN). -/
def summary_for (labeled : List (Row × String)) (label : String) :
    Option RunSummary :=
  let group := labeled.filter (fun x => x.2 = label)
  if group.isEmpty then none
  else
    some
      { count := group.length
        mean_distance_km := round2 (list_mean (group.map (·.1.distance_km)))
        mean_pace_min_per_km :=
          round2 (list_mean (group.map (·.1.pace_min_per_km)))
        mean_average_heartrate :=
          let hrs := group.filterMap (·.1.average_heartrate)
          if hrs.isEmpty then none else some (round2 (list_mean hrs)) }

/-- Embeds `PfitzRunClassifier.get_classification_summary`: classify the batch, then
group the labeled rows by `run_type` and aggregate.  Returned as the summary
mapping (a partial function from label to aggregate row) together with the
labeled batch. -/
def get_classification_summary (c : Classifier) (df : List Row) :
    (String → Option RunSummary) × List (Row × String) :=
  let classified := (classify_dataframe c df).2
  (fun label => summary_for classified label, classified)

/-! Concrete fixtures used by witnesses and counterexamples. -/

/-- A short easy run with no optional data at all: 5 km in 30 min, no heart
rate, no best efforts. -/
def plainRow : Row := ⟨5, 30, 6, none, none, none, none, none, none⟩

/-- A record satisfying both the Race rule (5 km best effort 4.0 ≤ 4.17) and
the Recovery rule (5 km ≤ 8, average-HR percentage 12000/191 ≈ 62.8). -/
def raceAndRecoveryRow : Row := ⟨5, 30, 6, some 120, none, none, none, some 4, none⟩

/-- A classifier configured with `max_hr = 0` and the standard known PBs. -/
def zeroMaxHrClassifier : Classifier := ⟨0, 4, 21/5, none, none⟩

/-- A record with positive average and maximum heart rates and no best
efforts. -/
def hrRow : Row := ⟨5, 30, 6, some 150, some 180, none, none, none, none⟩

/-- A batch consisting of one record carrying a 10 km best effort of
4.5 min/km. -/
def tenKBatch : List Row := [⟨10, 45, 9/2, none, none, none, none, none, some (9/2)⟩]

/-- A batch with no best-effort data at all. -/
def noEffortBatch : List Row := [plainRow]

/-- A record the cascade labels `"Lactate Threshold"`: max-HR percentage
17000/191 ≈ 89.0 and a 2-mile best effort of 4.5 ≤ 4.2 + 0.42. -/
def thresholdRow : Row := ⟨10, 50, 5, none, some 170, some (9/2), none, none, none⟩

/-- A classifier agreeing with `initClassifier` on the configured fields but
with both tracked personal bests populated. -/
def trackedClassifier : Classifier := ⟨191, 4, 21/5, some 4, some (9/2)⟩

/-- Three records with distances 5, 6, 7 km that the cascade labels
`"Recovery"` (average HR 120, percentage ≈ 62.8). -/
def recoveryBatch : List Row :=
  [⟨5, 30, 6, some 120, none, none, none, none, none⟩,
   ⟨6, 30, 5, some 120, none, none, none, none, none⟩,
   ⟨7, 30, 30/7, some 120, none, none, none, none, none⟩]

section

attribute [local semireducible] Rat.add Rat.mul Rat.inv Rat.sub Rat.ofScientific

/-- Every run of the cascade ends at one of the seven labels. -/
theorem classify_mem_allLabels (c : Classifier) (r : Row) :
    classify_run c r ∈ allLabels := by
  unfold classify_run
  repeat' split
  all_goals decide

/-- The cascade returns `"Race"` exactly when the Race predicate holds: it is
the first rule checked, and no later branch returns the string `"Race"`. -/
theorem classify_eq_race_iff (c : Classifier) (r : Row) :
    classify_run c r = "Race" ↔ is_race c r.pace_5k r.pace_10k = true := by
  constructor
  · intro heq
    by_contra h
    unfold classify_run at heq
    rw [if_neg h] at heq
    repeat' split at heq
    all_goals exact absurd heq (by decide)
  · intro h
    unfold classify_run
    rw [if_pos h]

/-- C1: classify evaluates the rules in the fixed order with Race first, so
every record satisfying both the Race condition and the Recovery condition is
labeled `"Race"` (the earlier rule wins). -/
theorem race_wins_over_recovery (c : Classifier) (r : Row)
    (hrace : is_race c r.pace_5k r.pace_10k = true)
    (hrec : is_recovery_run r.distance_km (avg_hr_pct_of c r) = true) :
    classify_run c r = "Race" := by
  unfold classify_run
  simp [hrace]

/-- Witness for C1 at a concrete record satisfying both rules. -/
theorem race_wins_over_recovery_witness :
    is_race initClassifier raceAndRecoveryRow.pace_5k raceAndRecoveryRow.pace_10k = true ∧
    is_recovery_run raceAndRecoveryRow.distance_km
      (avg_hr_pct_of initClassifier raceAndRecoveryRow) = true ∧
    classify_run initClassifier raceAndRecoveryRow = "Race" :=
  ⟨by decide, by decide,
   race_wins_over_recovery initClassifier raceAndRecoveryRow (by decide) (by decide)⟩

/-- C2: classification is total — for every classifier state and every record,
including records with absent heart-rate data and absent best-effort paces,
`classify_run` returns exactly one of the seven labels; `"Other"` is the
unconditional fallback, so there is no failure outcome. -/
theorem classify_run_total (c : Classifier) (r : Row) :
    classify_run c r ∈ allLabels :=
  classify_mem_allLabels c r

/-- C8: batch classification is a frame operation — the output pairs carry
the input records unchanged and in the original order, with only a derived
label attached. -/
theorem classify_dataframe_frame (c : Classifier) (df : List Row) :
    ((classify_dataframe c df).2.map Prod.fst) = df := by
  simp [classify_dataframe, List.map_map, Function.comp_def]

/-- C10: the label depends only on the record, the known baseline paces and
the configured maximum heart rate — two classifier states differing only in
the tracked personal bests classify every record identically. -/
theorem classify_ignores_tracked (c₁ c₂ : Classifier) (r : Row)
    (hm : c₁.max_hr = c₂.max_hr)
    (h5 : c₁.known_pb_5k_pace = c₂.known_pb_5k_pace)
    (h10 : c₁.known_pb_10k_pace = c₂.known_pb_10k_pace) :
    classify_run c₁ r = classify_run c₂ r := by
  cases c₁
  cases c₂
  dsimp only at hm h5 h10
  subst hm
  subst h5
  subst h10
  rfl

/-- Witness for C10: a registry with no tracked bests and one with both
tracked bests populated label the same record identically. -/
theorem classify_ignores_tracked_witness :
    classify_run initClassifier plainRow = classify_run trackedClassifier plainRow :=
  classify_ignores_tracked initClassifier trackedClassifier plainRow rfl rfl rfl

/-- C3 counterexample: with `max_hr = 0`, a record with a positive maximum
heart rate has percentage `⊤` (float `+inf`), which ACTIVATES the ≥ 95%
VO₂-Max branch instead of suppressing it: the record is labeled
`"VO₂ Max Intervals"`, while the same record with its heart-rate data removed
is labeled `"Other"`.  The heart-rate-based rules are therefore not silently
suppressed as the claim states. -/
theorem zero_max_hr_counterexample :
    classify_run zeroMaxHrClassifier hrRow = "VO₂ Max Intervals" ∧
    classify_run zeroMaxHrClassifier plainRow = "Other" ∧
    classify_run zeroMaxHrClassifier hrRow ≠ classify_run zeroMaxHrClassifier plainRow ∧
    max_hr_pct_of zeroMaxHrClassifier hrRow = ⊤ :=
  ⟨by decide, by decide, by decide, by decide⟩

/-- C3 amended: with `max_hr = 0` classification never fails and still
returns one of the seven labels, but the heart-rate percentage of a positive
observed rate is `+inf` (`⊤`), not zero: the max-HR-based branches are
activated, so any record with a positive maximum heart rate is labeled
`"Race"` or `"VO₂ Max Intervals"`; meanwhile the average-HR range rules
never fire, since the percentage is `⊤` (failing `< 70` and `≤ 81`) or `0`
(failing `> 0` and `≥ 70`). -/
theorem zero_max_hr_amended (c : Classifier) (r : Row) (h : c.max_hr = 0) :
    classify_run c r ∈ allLabels ∧
    (0 < r.max_heartrate.getD 0 →
      classify_run c r = "Race" ∨ classify_run c r = "VO₂ Max Intervals") ∧
    is_recovery_run r.distance_km (avg_hr_pct_of c r) = false ∧
    is_general_aerobic r.distance_km (avg_hr_pct_of c r) r.duration_min =
      false := by
  refine ⟨classify_mem_allLabels c r, fun hpos => ?_, ?_, ?_⟩
  · have hpct : max_hr_pct_of c r = ⊤ := by
      simp [max_hr_pct_of, hr_pct, h, hpos]
    have hvo2 : is_vo2_max_intervals c r.pace_1k (max_hr_pct_of c r) = true := by
      simp [is_vo2_max_intervals, hpct, le_top]
    unfold classify_run
    by_cases hrace : is_race c r.pace_5k r.pace_10k = true
    · rw [if_pos hrace]
      exact Or.inl rfl
    · rw [if_neg hrace, if_pos hvo2]
      exact Or.inr rfl
  · by_cases hpos : 0 < r.average_heartrate.getD 0
    · have hpct : avg_hr_pct_of c r = ⊤ := by
        simp [avg_hr_pct_of, hr_pct, h, hpos]
      have hlt : ¬ ((⊤ : WithTop ℚ) < ((70 : ℚ) : WithTop ℚ)) := not_top_lt
      simp [is_recovery_run, hpct, hlt]
    · have hpct : avg_hr_pct_of c r = ((0 : ℚ) : WithTop ℚ) := by
        simp [avg_hr_pct_of, hr_pct, hpos]
      simp [is_recovery_run, hpct]
  · by_cases hpos : 0 < r.average_heartrate.getD 0
    · have hpct : avg_hr_pct_of c r = ⊤ := by
        simp [avg_hr_pct_of, hr_pct, h, hpos]
      have hle : ¬ ((⊤ : WithTop ℚ) ≤ ((81 : ℚ) : WithTop ℚ)) := by
        simp [top_le_iff]
      simp [is_general_aerobic, hpct, hle]
    · have hpct : avg_hr_pct_of c r = ((0 : ℚ) : WithTop ℚ) := by
        simp [avg_hr_pct_of, hr_pct, hpos]
      have hge : ¬ (((70 : ℚ) : WithTop ℚ) ≤ ((0 : ℚ) : WithTop ℚ)) := by
        rw [WithTop.coe_le_coe]
        norm_num
      simp [is_general_aerobic, hpct, hge]

/-- Witness for the amended C3 at the concrete zero-max-HR configuration. -/
theorem zero_max_hr_amended_witness :
    classify_run zeroMaxHrClassifier hrRow ∈ allLabels ∧
    (classify_run zeroMaxHrClassifier hrRow = "Race" ∨
     classify_run zeroMaxHrClassifier hrRow = "VO₂ Max Intervals") ∧
    is_recovery_run hrRow.distance_km
      (avg_hr_pct_of zeroMaxHrClassifier hrRow) = false ∧
    is_general_aerobic hrRow.distance_km
      (avg_hr_pct_of zeroMaxHrClassifier hrRow) hrRow.duration_min = false :=
  ⟨(zero_max_hr_amended zeroMaxHrClassifier hrRow rfl).1,
   (zero_max_hr_amended zeroMaxHrClassifier hrRow rfl).2.1 (by decide),
   (zero_max_hr_amended zeroMaxHrClassifier hrRow rfl).2.2.1,
   (zero_max_hr_amended zeroMaxHrClassifier hrRow rfl).2.2.2⟩

/-- C4 counterexample: deriving first from a batch holding a 10 km effort and
then from a batch with NO 10 km efforts leaves the first batch's tracked
10 km pace in place — the result is not determined solely by the second call's
batch, and the field is not left undefined. -/
theorem personal_bests_counterexample :
    noEffortBatch.filterMap (fun r => r.pace_10k) = [] ∧
    (calculate_personal_bests (calculate_personal_bests initClassifier tenKBatch)
        noEffortBatch).tracked_pb_10k_pace = some (9/2) ∧
    (calculate_personal_bests (calculate_personal_bests initClassifier tenKBatch)
        noEffortBatch).tracked_pb_10k_pace ≠ none :=
  ⟨by decide, by decide, by decide⟩

/-- C4 amended: deriving twice from the same batch is idempotent, and a batch
with no 10 km efforts leaves the tracked 10 km pace UNCHANGED — hence
undefined when starting from a fresh registry, but equal to the previously
stored value otherwise, so the result of a sequence of derivations is not a
function of the last batch alone. -/
theorem personal_bests_amended :
    (∀ (c : Classifier) (df : List Row),
        calculate_personal_bests (calculate_personal_bests c df) df =
          calculate_personal_bests c df) ∧
    (∀ (c : Classifier) (df : List Row),
        df.filterMap (fun r => r.pace_10k) = [] →
        (calculate_personal_bests c df).tracked_pb_10k_pace =
          c.tracked_pb_10k_pace) ∧
    (∀ df : List Row, df.filterMap (fun r => r.pace_10k) = [] →
        (calculate_personal_bests initClassifier df).tracked_pb_10k_pace = none) := by
  refine ⟨?_, ?_, ?_⟩
  · intro c df
    cases h5 : list_min (df.filterMap fun r => r.pace_5k) <;>
      cases h10 : list_min (df.filterMap fun r => r.pace_10k) <;>
        simp [calculate_personal_bests, h5, h10]
  · intro c df h
    simp [calculate_personal_bests, h, list_min]
  · intro df h
    simp [calculate_personal_bests, h, list_min, initClassifier]

/-- Witness for the amended C4 on concrete batches. -/
theorem personal_bests_amended_witness :
    (calculate_personal_bests (calculate_personal_bests initClassifier tenKBatch)
        tenKBatch = calculate_personal_bests initClassifier tenKBatch) ∧
    ((calculate_personal_bests trackedClassifier noEffortBatch).tracked_pb_10k_pace =
        trackedClassifier.tracked_pb_10k_pace) ∧
    ((calculate_personal_bests initClassifier noEffortBatch).tracked_pb_10k_pace =
        none) :=
  ⟨personal_bests_amended.1 initClassifier tenKBatch,
   personal_bests_amended.2.1 trackedClassifier noEffortBatch (by decide),
   personal_bests_amended.2.2 noEffortBatch (by decide)⟩

/-- C5: the Recovery predicate holds exactly when the distance is at most
8 km and the average-heart-rate percentage lies strictly between 0 and 70;
consequently a record whose average heart rate is absent or zero never
satisfies the Recovery rule, whatever its distance. -/
theorem recovery_rule_characterization :
    (∀ (d : ℚ) (pct : WithTop ℚ),
        is_recovery_run d pct = true ↔
          (d ≤ 8 ∧ ((0 : ℚ) : WithTop ℚ) < pct ∧ pct < ((70 : ℚ) : WithTop ℚ))) ∧
    (∀ (c : Classifier) (r : Row),
        r.average_heartrate = none ∨ r.average_heartrate = some 0 →
        is_recovery_run r.distance_km (avg_hr_pct_of c r) = false) := by
  constructor
  · intro d pct
    simp only [is_recovery_run, Bool.and_eq_true, decide_eq_true_eq]
    tauto
  · intro c r h
    have hz : r.average_heartrate.getD 0 = 0 := by
      rcases h with h | h <;> simp [h]
    simp [avg_hr_pct_of, hr_pct, hz, is_recovery_run]

/-- Witness for C5: a 5 km run at 50% average heart rate is Recovery, and the
same predicate rejects a record with no heart-rate data. -/
theorem recovery_rule_characterization_witness :
    is_recovery_run 5 ((50 : ℚ) : WithTop ℚ) = true ∧
    is_recovery_run plainRow.distance_km (avg_hr_pct_of initClassifier plainRow) =
      false :=
  ⟨(recovery_rule_characterization.1 5 ((50 : ℚ) : WithTop ℚ)).mpr
      ⟨by decide, by decide, by decide⟩,
   recovery_rule_characterization.2 initClassifier plainRow (Or.inl rfl)⟩

/-- C6: a record labeled `"Lactate Threshold"` necessarily satisfies BOTH
conditions of the rule: its max-heart-rate percentage is at least 85 and its
2-mile best-effort pace exists and is within 0.42 min/km of the known 10 km
personal best.  Satisfying only one of the two never yields the label. -/
theorem lactate_threshold_conjunction (c : Classifier) (r : Row)
    (h : classify_run c r = "Lactate Threshold") :
    max_hr_pct_of c r ≥ ((85 : ℚ) : WithTop ℚ) ∧
    ∃ p, r.pace_2_mile = some p ∧ p ≤ c.known_pb_10k_pace + 42/100 := by
  have hlt : is_lactate_threshold c r.pace_2_mile (max_hr_pct_of c r) = true := by
    unfold classify_run at h
    repeat' split at h
    all_goals first
      | assumption
      | exact absurd h (by decide)
  rcases hp : r.pace_2_mile with _ | p
  · rw [hp] at hlt
    simp [is_lactate_threshold] at hlt
  · rw [hp] at hlt
    simp only [is_lactate_threshold, Bool.and_eq_true, decide_eq_true_eq] at hlt
    exact ⟨hlt.1, p, rfl, hlt.2.2⟩

/-- Witness for C6 at a record the cascade labels Lactate Threshold. -/
theorem lactate_threshold_conjunction_witness :
    max_hr_pct_of initClassifier thresholdRow ≥ ((85 : ℚ) : WithTop ℚ) ∧
    ∃ p, thresholdRow.pace_2_mile = some p ∧
      p ≤ initClassifier.known_pb_10k_pace + 42/100 :=
  lactate_threshold_conjunction initClassifier thresholdRow (by decide)

/-- C7: with the known baselines and all other fields fixed, making a present
5 km best-effort pace faster preserves the `"Race"` label: if the record with
the slower pace `p2` is labeled Race, so is the record with the faster pace
`p1` (paces are positive by the data model). -/
theorem faster_5k_preserves_race (c : Classifier) (r : Row) (p1 p2 : ℚ)
    (hp1 : 0 < p1) (hle : p1 ≤ p2)
    (h2 : classify_run c { r with pace_5k := some p2 } = "Race") :
    classify_run c { r with pace_5k := some p1 } = "Race" := by
  rw [classify_eq_race_iff] at h2 ⊢
  simp only [is_race, Bool.or_eq_true] at h2 ⊢
  rcases h2 with h2 | h2
  · left
    simp only [Bool.and_eq_true, decide_eq_true_eq] at h2 ⊢
    exact ⟨⟨ne_of_gt hp1, h2.1.2⟩, le_trans hle h2.2⟩
  · right
    exact h2

/-- Witness for C7: pace 4.1 is labeled Race, so pace 4.0 is as well. -/
theorem faster_5k_preserves_race_witness :
    classify_run initClassifier { plainRow with pace_5k := some 4 } = "Race" :=
  faster_5k_preserves_race initClassifier plainRow 4 (41/10) (by decide)
    (by decide) (by decide)

/-- A label has a summary row exactly when some labeled record bears it. -/
theorem summary_for_isSome_iff (l : List (Row × String)) (label : String) :
    (summary_for l label).isSome = true ↔ label ∈ l.map Prod.snd := by
  unfold summary_for
  dsimp only
  split
  · rename_i hemp
    rw [List.isEmpty_iff] at hemp
    constructor
    · intro hfalse
      exact absurd hfalse (by decide)
    · intro hmem
      exfalso
      rw [List.mem_map] at hmem
      obtain ⟨x, hx, hxl⟩ := hmem
      have hmemf : x ∈ List.filter (fun y => y.2 = label) l :=
        List.mem_filter.mpr ⟨hx, by simp [hxl]⟩
      rw [hemp] at hmemf
      exact absurd hmemf (List.not_mem_nil x)
  · rename_i hemp
    have hne : List.filter (fun y => y.2 = label) l ≠ [] := by
      intro hh
      exact hemp (by simp [hh])
    obtain ⟨x, hx⟩ := List.exists_mem_of_ne_nil _ hne
    have hmf := List.mem_filter.mp hx
    constructor
    · intro _
      rw [List.mem_map]
      exact ⟨x, hmf.1, by simpa using hmf.2⟩
    · intro _
      rfl

/-- C9: the summary mapping has an entry for a label exactly when some record
of the batch bears that label (no zero-count entries), and on the concrete
batch of three Recovery records with distances 5, 6, 7 it reports count 3,
mean distance 6.0, mean pace 5.10 and mean average heart rate 120, while the
absent `"Race"` category has no entry. -/
theorem summary_presence_and_means :
    (∀ (c : Classifier) (df : List Row) (label : String),
        ((get_classification_summary c df).1 label).isSome = true ↔
          label ∈ (classify_dataframe c df).2.map Prod.snd) ∧
    (get_classification_summary initClassifier recoveryBatch).1 "Recovery" =
      some ⟨3, 6, 51/10, some 120⟩ ∧
    (get_classification_summary initClassifier recoveryBatch).1 "Race" = none := by
  refine ⟨?_, by decide, by decide⟩
  intro c df label
  exact summary_for_isSome_iff (classify_dataframe c df).2 label

end

end Pfitz
